import Mathlib

/-!
Shallow embedding of the `benchmarking_tool` package (files `fio.py`,
`celery_app.py`, `coordinator.py`) and proofs about it.

Modelling conventions:
* Python dictionaries/JSON documents are modelled by the inductive `JValue`;
  object fields are association lists looked up by first match (Python dict
  keys are unique, so first-match lookup agrees with dict lookup).
* Python code that can raise is modelled in `Except String`, the error string
  naming the Python exception class.
* Machine-level floats are modelled as exact fractions (`PyFloat`); the
  claims settled here never depend on binary rounding of floats.
* External libraries (`humanize`, `tabulate`) and the external `fio`
  executable are outside the repository; their entry points are modelled by
  simple total Lean functions whose exact output strings are irrelevant to
  the claims, and the executable's outcome is an explicit input record.
-/

set_option autoImplicit false

/-- An exact fraction `num / den` (with `den` positive by construction),
modelling a Python float value. The claims never depend on binary float
rounding, so an exact decimal-fraction model is faithful for them. -/
structure PyFloat where
  num : ℤ
  den : ℕ

/-- Embed an integer as a `PyFloat`. -/
def PyFloat.ofInt (n : ℤ) : PyFloat := ⟨n, 1⟩

/-- Divide a `PyFloat` by a positive natural number (Python true division). -/
def PyFloat.divNat (x : PyFloat) (k : ℕ) : PyFloat := ⟨x.num, x.den * k⟩

/-- Round `100 * |x|` to the nearest natural number, halves up (decimal model
of the rounding done by Python's fixed-point float formatting). -/
def PyFloat.centsAbs (x : PyFloat) : ℕ :=
  (200 * x.num.natAbs + x.den) / (2 * x.den)

/-- Render a `PyFloat` exactly: as an integer when the fraction is integral,
as `num/den` otherwise. Only used inside models of external rendering
libraries, so the exact shape is irrelevant to the claims. -/
def PyFloat.render (x : PyFloat) : String :=
  if x.num % (x.den : ℤ) = 0 then toString (x.num / (x.den : ℤ))
  else toString x.num ++ "/" ++ toString x.den

/-- A JSON-like value: the universe of Python values that appear in parsed
fio result documents (`json.loads` output): `None`, `bool`, `int`, `float`,
`str`, lists and dicts. Python's `bool` is kept separate because
`isinstance(b, int)` is true for booleans; the functions below coerce it
where the Python code would. -/
inductive JValue where
  | null
  | bool (b : Bool)
  | int (n : ℤ)
  | float (q : PyFloat)
  | str (s : String)
  | arr (xs : List JValue)
  | obj (fields : List (String × JValue))

/-- First-match lookup in an object's field list (Python `d.get(key)`). -/
def jlookup (fields : List (String × JValue)) (k : String) : Option JValue :=
  match fields with
  | [] => none
  | (k2, v) :: rest => if k2 = k then some v else jlookup rest k

/-- First-match lookup in a string-valued association list. -/
def mlookup (m : List (String × String)) (k : String) : Option String :=
  match m with
  | [] => none
  | (k2, v) :: rest => if k2 = k then some v else mlookup rest k

/-- Insert `sep` before every third digit of a reversed digit list. -/
def groupRev (sep : Char) : List Char → ℕ → List Char
  | [], _ => []
  | c :: cs, i =>
    (if 0 < i ∧ i % 3 = 0 then [sep, c] else [c]) ++ groupRev sep cs (i + 1)

/-- Decimal digits of a natural number with a separator inserted every three
digits, as in Python's `,`/`_` format-spec grouping. -/
def groupedDigits (sep : Char) (n : ℕ) : String :=
  String.mk ((groupRev sep (Nat.toDigits 10 n).reverse 0).reverse)

/-- Model of the Python format specs `.2f` (and, with `grouped = true`,
`_.2f`): fixed two decimal places, optionally grouping the integer digits
with underscores. -/
def formatFixed2 (grouped : Bool) (x : PyFloat) : String :=
  let neg : Bool := decide (x.num < 0)
  let cents : ℕ := x.centsAbs
  let ip : ℕ := cents / 100
  let fp : ℕ := cents % 100
  let ipStr : String :=
    if grouped then groupedDigits '_' ip else String.mk (Nat.toDigits 10 ip)
  let fpStr : String := (if fp < 10 then "0" else "") ++ toString fp
  (if neg then "-" else "") ++ ipStr ++ "." ++ fpStr

/-- Model of the external `humanize.naturalsize(value, binary=True)`; only
totality matters for the claims, not the exact rendering. -/
def naturalsizeModel (n : ℤ) : String :=
  toString n ++ " Bytes"

/-- Model of the external `humanize.naturaldelta(timedelta(microseconds=x),
minimum_unit="microseconds")`; only totality matters for the claims. -/
def naturaldeltaUsModel (x : PyFloat) : String :=
  x.render ++ " microseconds"

/-- Model of the external `humanize.precisedelta(seconds)`; only totality
matters for the claims. -/
def precisedeltaModel (x : PyFloat) : String :=
  x.render ++ " seconds"

/-- Model of the external `humanize.intcomma`: integers are comma-grouped;
non-numeric input is returned unchanged rather than raising (humanize catches
the conversion error and returns its argument). -/
def intcommaModel (v : JValue) : String :=
  match v with
  | .int n => (if n < 0 then "-" else "") ++ groupedDigits ',' n.natAbs
  | .bool b => if b then "1" else "0"
  | .float q => q.render
  | .str s => s
  | .null => "None"
  | .arr _ => "[...]"
  | .obj _ => "[...]"

/-- Python `isinstance(v, int)` over the JSON universe: true exactly for
ints and booleans. -/
def isIntValue : JValue → Bool
  | .int _ => true
  | .bool _ => true
  | _ => false

/-- Python `isinstance(v, (int, float))` over the JSON universe: true
exactly for ints, floats and booleans. -/
def isNumericValue : JValue → Bool
  | .int _ => true
  | .float _ => true
  | .bool _ => true
  | _ => false

namespace FioResult

/-- `FioResult.NO_RESULT_STRING` (fio.py line 51). -/
def NO_RESULT_STRING : String := "---"

/-- `FioResult.safe_get` (fio.py lines 99-118): walk `keys` through nested
dicts; a key that is missing (or maps to `None`) yields `default`; reaching a
non-dict value with keys still to process raises `AttributeError` (Python
calls `.get` on it). -/
def safe_get (d : JValue) (keys : List String) (default : JValue) :
    Except String JValue :=
  match keys with
  | [] => .ok d
  | k :: ks =>
    match d with
    | .obj fields =>
      match jlookup fields k with
      | none => .ok default
      | some .null => .ok default
      | some v => safe_get v ks default
    | _ => .error "AttributeError"

/-- `FioResult.__humanize_bytes` (fio.py lines 63-78): `isinstance(value,
int)` is true exactly for ints and booleans. -/
def humanizeBytes (v : JValue) : String :=
  match v with
  | .int n => naturalsizeModel n
  | .bool b => naturalsizeModel (if b then 1 else 0)
  | _ => NO_RESULT_STRING

/-- `FioResult.__humanize_time_ns` (fio.py lines 80-97): numeric values
(ints, floats, booleans) are divided by 1000 and rendered as a time delta;
anything else yields the sentinel. -/
def humanizeTimeNs (v : JValue) : String :=
  match v with
  | .int n => naturaldeltaUsModel ((PyFloat.ofInt n).divNat 1000)
  | .float q => naturaldeltaUsModel (q.divNat 1000)
  | .bool b => naturaldeltaUsModel ((PyFloat.ofInt (if b then 1 else 0)).divNat 1000)
  | _ => NO_RESULT_STRING

/-- Python `f"{v:_.2f}"` / `f"{v:.2f}"` applied to an arbitrary value:
formats ints, floats and booleans; raises `ValueError` on strings and
`TypeError` on other types. -/
def pyFormatFixed2 (grouped : Bool) (v : JValue) : Except String String :=
  match v with
  | .int n => .ok (formatFixed2 grouped (PyFloat.ofInt n))
  | .float q => .ok (formatFixed2 grouped q)
  | .bool b => .ok (formatFixed2 grouped (PyFloat.ofInt (if b then 1 else 0)))
  | .str _ => .error "ValueError"
  | _ => .error "TypeError"

/-- Python's true division `v / 1000`: numeric values divide, anything else
raises `TypeError`. -/
def pyDiv1000 (v : JValue) : Except String PyFloat :=
  match v with
  | .int n => .ok ((PyFloat.ofInt n).divNat 1000)
  | .float q => .ok (q.divNat 1000)
  | .bool b => .ok ((PyFloat.ofInt (if b then 1 else 0)).divNat 1000)
  | _ => .error "TypeError"

/-- `FioResult.get_relevant_metrics` (fio.py lines 120-159): the fixed
projection from one job record to labelled human-readable strings, with the
source's dict-literal evaluation order. -/
def get_relevant_metrics (job : JValue) : Except String (List (String × String)) := do
  let v1 ← safe_get job ["read", "io_bytes"] (.str NO_RESULT_STRING)
  let v2 ← safe_get job ["write", "io_bytes"] (.str NO_RESULT_STRING)
  let v3 ← safe_get job ["read", "bw_bytes"] (.str NO_RESULT_STRING)
  let v4 ← safe_get job ["write", "bw_bytes"] (.str NO_RESULT_STRING)
  let v5 ← safe_get job ["read", "iops"] (.float (PyFloat.ofInt 0))
  let f5 ← pyFormatFixed2 true v5
  let v6 ← safe_get job ["write", "iops"] (.float (PyFloat.ofInt 0))
  let f6 ← pyFormatFixed2 true v6
  let v7 ← safe_get job ["read", "slat_ns", "mean"] (.str NO_RESULT_STRING)
  let v8 ← safe_get job ["read", "clat_ns", "mean"] (.str NO_RESULT_STRING)
  let v9 ← safe_get job ["read", "lat_ns", "mean"] (.str NO_RESULT_STRING)
  let v10 ← safe_get job ["write", "slat_ns", "mean"] (.str NO_RESULT_STRING)
  let v11 ← safe_get job ["write", "clat_ns", "mean"] (.str NO_RESULT_STRING)
  let v12 ← safe_get job ["write", "lat_ns", "mean"] (.str NO_RESULT_STRING)
  let v13 ← safe_get job ["job_runtime"] (.int 0)
  let q13 ← pyDiv1000 v13
  let v14 ← safe_get job ["usr_cpu"] (.float (PyFloat.ofInt 0))
  let f14 ← pyFormatFixed2 false v14
  let v15 ← safe_get job ["sys_cpu"] (.float (PyFloat.ofInt 0))
  let f15 ← pyFormatFixed2 false v15
  let v16 ← safe_get job ["ctx"] (.int 0)
  let v17 ← safe_get job ["read", "clat_ns", "percentile", "99.000000"] (.str NO_RESULT_STRING)
  let v18 ← safe_get job ["read", "clat_ns", "percentile", "99.900000"] (.str NO_RESULT_STRING)
  let v19 ← safe_get job ["write", "clat_ns", "percentile", "99.000000"] (.str NO_RESULT_STRING)
  let v20 ← safe_get job ["write", "clat_ns", "percentile", "99.900000"] (.str NO_RESULT_STRING)
  pure [
    ("Total Read IO", humanizeBytes v1),
    ("Total Write IO", humanizeBytes v2),
    ("Read Bandwidth", humanizeBytes v3 ++ "/s"),
    ("Write Bandwidth", humanizeBytes v4 ++ "/s"),
    ("Read IOPS", f5 ++ " IOPS"),
    ("Write IOPS", f6 ++ " IOPS"),
    ("Read Submission Latency", humanizeTimeNs v7),
    ("Read Completion Latency", humanizeTimeNs v8),
    ("Read Total Latency", humanizeTimeNs v9),
    ("Write Submission Latency", humanizeTimeNs v10),
    ("Write Completion Latency", humanizeTimeNs v11),
    ("Write Total Latency", humanizeTimeNs v12),
    ("Job Runtime", precisedeltaModel q13),
    ("User CPU", f14 ++ "%"),
    ("System CPU", f15 ++ "%"),
    ("Context Switches", intcommaModel v16),
    ("Read Latency (99.0 Percentiles)", humanizeTimeNs v17),
    ("Read Latency (99.9 Percentiles)", humanizeTimeNs v18),
    ("Write Latency (99.0 Percentiles)", humanizeTimeNs v19),
    ("Write Latency (99.9 Percentiles)", humanizeTimeNs v20)]

/-- The metrics of the job record with every field absent: sentinel strings
for the byte and latency fields, formatted zero defaults for the numeric
counters. -/
def defaultMetrics : List (String × String) :=
  [("Total Read IO", "---"),
   ("Total Write IO", "---"),
   ("Read Bandwidth", "---/s"),
   ("Write Bandwidth", "---/s"),
   ("Read IOPS", "0.00 IOPS"),
   ("Write IOPS", "0.00 IOPS"),
   ("Read Submission Latency", "---"),
   ("Read Completion Latency", "---"),
   ("Read Total Latency", "---"),
   ("Write Submission Latency", "---"),
   ("Write Completion Latency", "---"),
   ("Write Total Latency", "---"),
   ("Job Runtime", "0 seconds"),
   ("User CPU", "0.00%"),
   ("System CPU", "0.00%"),
   ("Context Switches", "0"),
   ("Read Latency (99.0 Percentiles)", "---"),
   ("Read Latency (99.9 Percentiles)", "---"),
   ("Write Latency (99.0 Percentiles)", "---"),
   ("Write Latency (99.9 Percentiles)", "---")]

/-- The rendered metric at one label of one job record, `none` when the
projection raises or the label is absent. -/
def metricAt (job : JValue) (label : String) : Option String :=
  (get_relevant_metrics job).toOption.bind (fun m => mlookup m label)

/-- A job record whose read byte counter is present but holds a non-numeric
string. -/
def garbageJob : JValue :=
  JValue.obj [("read", JValue.obj [("io_bytes", JValue.str "garbage")])]

end FioResult

namespace FioConfig

/-- A parsed fio configuration, as stored by `configparser.ConfigParser
(allow_no_value=True)` with `optionxform = str` (fio.py lines 266-283):
the sections in file order, each with its `(key, value)` items in file order.
Values are the strings that `config.items(section)` yields; a value-less key
is rendered by `items` as the empty string. Section names and the keys
within one section are unique (the parser rejects duplicates); configs using
`%`-interpolation syntax or a `[DEFAULT]` section are outside this model. -/
def ConfigDoc : Type := List (String × List (String × String))

/-- `FioConfig.get_sections` (fio.py lines 307-314): all section names except
the reserved `global` section. -/
def get_sections (cfg : ConfigDoc) : List String :=
  (cfg.map Prod.fst).filter (fun s => s ≠ "global")

/-- `FioConfig.get_section` (fio.py lines 326-336): the items of one section;
`config.items` raises `NoSectionError` when the section does not exist. -/
def get_section (cfg : ConfigDoc) (section_ : String) :
    Except String (List (String × String)) :=
  match cfg with
  | [] => .error "NoSectionError"
  | (name, items) :: rest =>
    if name = section_ then .ok items else get_section rest section_

/-- `FioConfig.get_globals` (fio.py lines 316-324). -/
def get_globals (cfg : ConfigDoc) : Except String (List (String × String)) :=
  get_section cfg "global"

/-- `FioConfig.search_tuple_list` (fio.py lines 338-353): value of the first
tuple whose key matches, else `None`. -/
def search_tuple_list (arr : List (String × String)) (key : String) :
    Option String :=
  match arr with
  | [] => none
  | (k, v) :: rest => if k = key then some v else search_tuple_list rest key

/-- `FioConfig.get_config_value` (fio.py lines 355-371): the section-local
value when present, else the `global` value; both section lookups happen
before the choice, so a missing section or missing `global` section raises
`NoSectionError`. -/
def get_config_value (cfg : ConfigDoc) (section_ : String) (key : String) :
    Except String (Option String) := do
  let job_value := search_tuple_list (← get_section cfg section_) key
  let global_value := search_tuple_list (← get_globals cfg) key
  pure (match job_value with
        | some v => some v
        | none => global_value)

/-- Python whitespace characters stripped by `str.strip`/`int` (ASCII part). -/
def isPySpace (c : Char) : Bool :=
  c = ' ' || c = '\t' || c = '\n' || c = '\r' || c = '\x0b' || c = '\x0c'

/-- The characters of a string with surrounding whitespace stripped. -/
def stripChars (s : String) : List Char :=
  ((s.data.dropWhile isPySpace).reverse.dropWhile isPySpace).reverse

/-- Python `int(s)` on a string: optional surrounding whitespace, optional
sign, then at least one decimal digit; anything else raises `ValueError`.
(PEP 515 underscore grouping is not modelled.) -/
def pyInt (s : String) : Except String ℤ :=
  let digitsVal : List Char → Except String ℕ := fun ds =>
    if ds ≠ [] ∧ ds.all Char.isDigit then
      .ok (ds.foldl (fun acc c => 10 * acc + (c.toNat - 48)) 0)
    else .error "ValueError"
  match stripChars s with
  | '+' :: ds => (digitsVal ds).map (fun n => (n : ℤ))
  | '-' :: ds => (digitsVal ds).map (fun n => -(n : ℤ))
  | ds => (digitsVal ds).map (fun n => (n : ℤ))

/-- Python `int(value or 0)` for `value : str | None`: `None` and the empty
string are falsy and yield `0`; any other string is parsed by `int`. -/
def pyIntOrZero (value : Option String) : Except String ℤ :=
  match value with
  | none => .ok 0
  | some s => if s = "" then .ok 0 else pyInt s

/-- The loop body of `FioConfig.get_job_runtime` (fio.py lines 383-385) for
one section: `int(ramp_time or 0) + int(runtime or 0)`, resolving each key
through `get_config_value`, in the source's evaluation order. -/
def section_runtime (cfg : ConfigDoc) (section_ : String) : Except String ℤ := do
  let ramp ← get_config_value cfg section_ "ramp_time"
  let ri ← pyIntOrZero ramp
  let runt ← get_config_value cfg section_ "runtime"
  let ti ← pyIntOrZero runt
  pure (ri + ti)

/-- `FioConfig.get_job_runtime` (fio.py lines 373-386): per-section runtime
estimates, keyed by section in order. -/
def get_job_runtime (cfg : ConfigDoc) : Except String (List (String × ℤ)) :=
  (get_sections cfg).mapM (fun s => do
    let v ← section_runtime cfg s
    pure (s, v))

/-- `FioConfig.print_job_runtime` (fio.py lines 388-410): the rows the method
tabulates, one per job plus a TOTAL row summing a second `get_job_runtime`
call. -/
def print_job_runtime (cfg : ConfigDoc) : Except String (List (String × String)) := do
  let rt ← get_job_runtime cfg
  let rt2 ← get_job_runtime cfg
  pure ((rt.map (fun kv => (kv.1, toString kv.2 ++ "s"))) ++
    [("TOTAL", toString (rt2.map Prod.snd).sum ++ "s")])

end FioConfig

/-- The shared Redis key/value store of worker registrations: each key maps
to a set of members, modelled as a duplicate-free list in insertion order.
Worker ids arrive as strings (the `bytes` returned by the redis client and
decoded by the coordinator are not distinguished). -/
def RedisStore : Type := List (String × List String)

namespace RedisStore

/-- Redis `SADD key value`: add `value` to the set at `key` (no-op when
already a member), creating the key when absent. -/
def sadd (st : RedisStore) (key value : String) : RedisStore :=
  match st with
  | [] => [(key, [value])]
  | (k, ms) :: rest =>
    if k = key then (k, if value ∈ ms then ms else ms ++ [value]) :: rest
    else (k, ms) :: sadd rest key value

/-- Redis `SREM key value`: remove `value` from the set at `key`. -/
def srem (st : RedisStore) (key value : String) : RedisStore :=
  match st with
  | [] => []
  | (k, ms) :: rest =>
    if k = key then (k, ms.filter (fun m => m ≠ value)) :: rest
    else (k, ms) :: srem rest key value

/-- Redis `SMEMBERS key`: the members of the set at `key` (empty when the
key is absent). -/
def smembers (st : RedisStore) (key : String) : List String :=
  match st with
  | [] => []
  | (k, ms) :: rest => if k = key then ms else smembers rest key

end RedisStore

/-- The registration-relevant state of `Worker` (celery_app.py lines 77-98):
`worker_group` and `worker_id` both start as `None`. Connection parameters,
the redis client object and the Celery app are process-external configuration
with no bearing on the claims. -/
structure Worker where
  worker_group : Option String
  worker_id : Option String

namespace Worker

/-- `Worker.register_worker` (celery_app.py lines 109-117): set the two
fields, then `SADD` the id into the set keyed by the group name; returns the
updated store and worker. -/
def register_worker (st : RedisStore) (_w : Worker) (group id : String) :
    RedisStore × Worker :=
  (RedisStore.sadd st group id, ⟨some group, some id⟩)

/-- `Worker.start_worker` (celery_app.py lines 119-122): raise `ValueError`
when no id is assigned; otherwise start serving with the queue named by the
id (the returned list is the argument vector handed to `worker_main`). -/
def start_worker (w : Worker) : Except String (List String) :=
  match w.worker_id with
  | none => .error "worker_id must be set before starting the worker"
  | some id => .ok ["worker", "--loglevel=info", "-E", "-Q", id]

/-- `Worker.__del__` (celery_app.py lines 124-131): when both fields are
set, `SREM` the id from the set keyed by `"workers_" + group`; otherwise do
nothing. -/
def del_cleanup (st : RedisStore) (w : Worker) : RedisStore :=
  match w.worker_group, w.worker_id with
  | some g, some i => RedisStore.srem st ("workers_" ++ g) i
  | _, _ => st

/-- `Worker.get_workers` (celery_app.py lines 133-134): `SMEMBERS` of the
set keyed by the group name. -/
def get_workers (st : RedisStore) (worker_group : String) : List String :=
  RedisStore.smembers st worker_group

end Worker

/-- The state of `Coordinator` (coordinator.py lines 105-146): the last wave
id plus the configuration installed by the chained setters. -/
structure Coordinator where
  last_wave_id : Option String
  worker_groups : List String
  filename : String

/-- One dispatched task signature: `run_benchmark.s(filename=..., wave_id=...,
timestamp=...).set(queue=...)` (coordinator.py lines 117-122). The trigger
timestamp is an opaque integer tick standing for `datetime.datetime.now()`. -/
structure TaskSig where
  filename : String
  wave_id : String
  timestamp : ℤ
  queue : String
deriving DecidableEq

namespace Coordinator

/-- `Coordinator.__log_progress` (coordinator.py lines 101-103): the body is
`raise NotImplementedError` (its intended content is commented out in the
source). -/
def log_progress : Except String Unit := .error "NotImplementedError"

/-- The task-building loop of `Coordinator.trigger_benchmark` (coordinator.py
lines 114-123): one fan-out group per configured worker group, containing one
task per registered worker, queued under that worker's id and tagged with the
wave id. -/
def build_wave_tasks (registry : RedisStore) (c : Coordinator)
    (trigger_time : ℤ) (wave_id : String) : List (List TaskSig) :=
  c.worker_groups.map (fun wg =>
    (Worker.get_workers registry wg).map (fun w =>
      { filename := c.filename, wave_id := wave_id, timestamp := trigger_time,
        queue := w }))

/-- `Coordinator.trigger_benchmark` (coordinator.py lines 108-126).
`datetime.datetime.now()` and `uuid.uuid4()` are modelled as the explicit
inputs `trigger_time` and `wave_id`; a successful run would return the
updated coordinator and the chained groups handed to `apply_async`. The body
calls `__log_progress` (line 112) before any task is built. -/
def trigger_benchmark (registry : RedisStore) (c : Coordinator)
    (trigger_time : ℤ) (wave_id : String) :
    Except String (Coordinator × List (List TaskSig)) := do
  log_progress
  let c2 : Coordinator := { c with last_wave_id := some wave_id }
  let groups := build_wave_tasks registry c trigger_time wave_id
  pure (c2, groups)

end Coordinator

/-- Model of Python `str()` on a JSON-like value, used where the source hands
raw values to `tabulate` for display; the exact rendering of composite
values is irrelevant to the claims. -/
def jShow (v : JValue) : String :=
  match v with
  | .null => "None"
  | .bool b => if b then "True" else "False"
  | .int n => toString n
  | .float q => q.render
  | .str s => s
  | .arr _ => "[...]"
  | .obj _ => "[...]"

namespace FioResult

/-- Python `d[key]` on a JSON-like value: `KeyError` when the key is absent,
`TypeError` when the value is not a dict. -/
def getIndex (v : JValue) (key : String) : Except String JValue :=
  match v with
  | .obj fields =>
    match jlookup fields key with
    | some x => .ok x
    | none => .error "KeyError"
  | _ => .error "TypeError"

/-- `FioResult.get_jobs` (fio.py lines 161-168): `self.result["jobs"]`, which
the callers iterate as a list (`TypeError` models iteration over a non-list
value). -/
def get_jobs (result : JValue) : Except String (List JValue) := do
  match ← getIndex result "jobs" with
  | .arr xs => .ok xs
  | _ => .error "TypeError"

/-- `FioResult.get_jobnames` (fio.py lines 170-177): `x["jobname"]` for each
entry of `result["jobs"]`. -/
def get_jobnames (result : JValue) : Except String (List JValue) := do
  (← get_jobs result).mapM (fun j => getIndex j "jobname")

/-- `FioResult.print_table` (fio.py lines 197-230): the headers and rows the
method hands to `tabulate`, in the source's evaluation order — headers
first, then the per-job metric projections, then `self.get_jobs()[0]`
(which raises `IndexError` on an empty job list) to fix the row labels. -/
def print_table (result : JValue) :
    Except String (List String × List (List String)) := do
  let names ← get_jobnames result
  let headers := "Metric" :: names.map jShow
  let jobs ← get_jobs result
  let jobMetrics ← jobs.mapM get_relevant_metrics
  let jobs2 ← get_jobs result
  let first ← match jobs2 with
    | [] => Except.error "IndexError"
    | j :: _ => Except.ok j
  let firstMetrics ← get_relevant_metrics first
  let table ← firstMetrics.mapM (fun kv => do
    let vals ← jobMetrics.mapM (fun m =>
      match mlookup m kv.1 with
      | some v => Except.ok v
      | none => Except.error "KeyError")
    Except.ok (kv.1 :: vals))
  pure (headers, table)

end FioResult

/-- JSON whitespace. -/
def jwhite (c : Char) : Bool :=
  c = ' ' || c = '\t' || c = '\n' || c = '\r'

/-- The value of one hexadecimal digit. -/
def hexVal (c : Char) : Option ℕ :=
  if c.isDigit then some (c.toNat - 48)
  else if 'a' ≤ c ∧ c ≤ 'f' then some (c.toNat - 87)
  else if 'A' ≤ c ∧ c ≤ 'F' then some (c.toNat - 55)
  else none

/-- Parse the remainder of a JSON string literal (the opening quote already
consumed), handling the standard escapes. -/
def parseStringAux : List Char → List Char → Option (String × List Char)
  | [], _ => none
  | '"' :: rest, acc => some (String.mk acc.reverse, rest)
  | '\\' :: '"' :: rest, acc => parseStringAux rest ('"' :: acc)
  | '\\' :: '\\' :: rest, acc => parseStringAux rest ('\\' :: acc)
  | '\\' :: '/' :: rest, acc => parseStringAux rest ('/' :: acc)
  | '\\' :: 'b' :: rest, acc => parseStringAux rest ('\x08' :: acc)
  | '\\' :: 'f' :: rest, acc => parseStringAux rest ('\x0c' :: acc)
  | '\\' :: 'n' :: rest, acc => parseStringAux rest ('\n' :: acc)
  | '\\' :: 'r' :: rest, acc => parseStringAux rest ('\r' :: acc)
  | '\\' :: 't' :: rest, acc => parseStringAux rest ('\t' :: acc)
  | '\\' :: 'u' :: h1 :: h2 :: h3 :: h4 :: rest, acc =>
    (match hexVal h1, hexVal h2, hexVal h3, hexVal h4 with
     | some a, some b, some c, some d =>
       parseStringAux rest (Char.ofNat (((a * 16 + b) * 16 + c) * 16 + d) :: acc)
     | _, _, _, _ => none)
  | '\\' :: _, _ => none
  | c :: rest, acc => parseStringAux rest (c :: acc)

/-- Accumulate the value of a run of decimal digits. -/
def natOfDigits (ds : List Char) : ℕ :=
  ds.foldl (fun acc c => 10 * acc + (c.toNat - 48)) 0

/-- Parse a JSON number: integers parse to `JValue.int`, numbers with a
fraction or exponent to `JValue.float` (as an exact decimal fraction). -/
def parseNumber (cs : List Char) : Option (JValue × List Char) :=
  let (sign, cs1) : ℤ × List Char :=
    match cs with
    | '-' :: rest => (-1, rest)
    | _ => (1, cs)
  let intDigits := cs1.takeWhile Char.isDigit
  let cs2 := cs1.dropWhile Char.isDigit
  if intDigits = [] then none
  else
    let ip : ℕ := natOfDigits intDigits
    match cs2 with
    | '.' :: cs3 =>
      let fracDigits := cs3.takeWhile Char.isDigit
      let cs4 := cs3.dropWhile Char.isDigit
      if fracDigits = [] then none
      else
        let mant : ℤ := sign * ((ip * 10 ^ fracDigits.length + natOfDigits fracDigits : ℕ) : ℤ)
        match cs4 with
        | e :: cs5 =>
          if e = 'e' ∨ e = 'E' then
            let (esign, cs6) : Bool × List Char :=
              match cs5 with
              | '-' :: rest => (true, rest)
              | '+' :: rest => (false, rest)
              | _ => (false, cs5)
            let eDigits := cs6.takeWhile Char.isDigit
            let cs7 := cs6.dropWhile Char.isDigit
            if eDigits = [] then none
            else
              let ev := natOfDigits eDigits
              if esign then
                some (.float ⟨mant, 10 ^ (fracDigits.length + ev)⟩, cs7)
              else
                some (.float ⟨mant * 10 ^ ev, 10 ^ fracDigits.length⟩, cs7)
          else some (.float ⟨mant, 10 ^ fracDigits.length⟩, cs4)
        | [] => some (.float ⟨mant, 10 ^ fracDigits.length⟩, [])
    | e :: cs3 =>
      if e = 'e' ∨ e = 'E' then
        let (esign, cs4) : Bool × List Char :=
          match cs3 with
          | '-' :: rest => (true, rest)
          | '+' :: rest => (false, rest)
          | _ => (false, cs3)
        let eDigits := cs4.takeWhile Char.isDigit
        let cs5 := cs4.dropWhile Char.isDigit
        if eDigits = [] then none
        else
          let ev := natOfDigits eDigits
          if esign then some (.float ⟨sign * (ip : ℤ), 10 ^ ev⟩, cs5)
          else some (.float ⟨sign * (ip : ℤ) * 10 ^ ev, 1⟩, cs5)
      else some (.int (sign * (ip : ℤ)), cs2)
    | [] => some (.int (sign * (ip : ℤ)), [])

mutual

/-- Parse one JSON value (fuel-bounded recursive descent; the fuel chosen by
`jsonLoads` is ample for any input it is applied to in this file). -/
def parseValue : ℕ → List Char → Option (JValue × List Char)
  | 0, _ => none
  | fuel + 1, cs =>
    let cs2 := cs.dropWhile jwhite
    match cs2 with
    | 'n' :: 'u' :: 'l' :: 'l' :: rest => some (.null, rest)
    | 't' :: 'r' :: 'u' :: 'e' :: rest => some (.bool true, rest)
    | 'f' :: 'a' :: 'l' :: 's' :: 'e' :: rest => some (.bool false, rest)
    | '"' :: rest => (parseStringAux rest []).map (fun p => (.str p.1, p.2))
    | '[' :: rest =>
      match rest.dropWhile jwhite with
      | ']' :: rest2 => some (.arr [], rest2)
      | _ => (parseElems fuel rest []).map (fun p => (.arr p.1, p.2))
    | '{' :: rest =>
      match rest.dropWhile jwhite with
      | '}' :: rest2 => some (.obj [], rest2)
      | _ => (parseMembers fuel rest []).map (fun p => (.obj p.1, p.2))
    | c :: _ => if c = '-' || c.isDigit then parseNumber cs2 else none
    | [] => none

/-- Parse the comma-separated elements of a non-empty JSON array, the opening
bracket already consumed. -/
def parseElems : ℕ → List Char → List JValue → Option (List JValue × List Char)
  | 0, _, _ => none
  | fuel + 1, cs, acc => do
    let (v, r) ← parseValue fuel cs
    match r.dropWhile jwhite with
    | ',' :: r2 => parseElems fuel r2 (acc ++ [v])
    | ']' :: r2 => some (acc ++ [v], r2)
    | _ => none

/-- Parse the comma-separated members of a non-empty JSON object, the opening
brace already consumed. -/
def parseMembers : ℕ → List Char → List (String × JValue) →
    Option (List (String × JValue) × List Char)
  | 0, _, _ => none
  | fuel + 1, cs, acc =>
    match cs.dropWhile jwhite with
    | '"' :: rest => do
      let (k, r1) ← parseStringAux rest []
      match r1.dropWhile jwhite with
      | ':' :: r2 => do
        let (v, r3) ← parseValue fuel r2
        match r3.dropWhile jwhite with
        | ',' :: r4 => parseMembers fuel r4 (acc ++ [(k, v)])
        | '}' :: r4 => some (acc ++ [(k, v)], r4)
        | _ => none
      | _ => none
    | _ => none

end

/-- Model of Python `json.loads`: parse one JSON document, requiring only
trailing whitespace after it; failures raise `JSONDecodeError`. -/
def jsonLoads (s : String) : Except String JValue :=
  match parseValue (4 * (s.data.length + 1)) s.data with
  | some (v, rest) =>
    if rest.dropWhile jwhite = [] then .ok v else .error "JSONDecodeError"
  | none => .error "JSONDecodeError"

/-- The outcome of one invocation of the external `fio` executable, as
captured by `subprocess.run(..., capture_output=True, text=True,
check=False)` (fio.py lines 442-462): the argument vector, exit status and
captured standard streams. -/
structure CompletedProcess where
  args : List String
  returncode : ℤ
  stdout : String
  stderr : String

/-- `subprocess.CalledProcessError(returncode, cmd, output, stderr)` as
raised by `Fio.run`. -/
structure CalledProcessError where
  returncode : ℤ
  cmd : List String
  output : String
  stderr : String
deriving DecidableEq

/-- The failures `Fio.run` can raise: the executable exited non-zero, or its
stdout was not valid JSON. -/
inductive RunError where
  | calledProcessError (e : CalledProcessError)
  | jsonDecodeError (msg : String)
deriving DecidableEq

namespace Fio

/-- `Fio.run` (fio.py lines 476-496): materializing the config to a temporary
file and invoking the executable are the external boundary, summarized by the
`CompletedProcess` input; the method then raises `CalledProcessError`
carrying exit code, captured stdout and captured stderr when the exit status
is non-zero, and otherwise returns the `FioResult` built from the parsed
stdout (the `FioResult` constructor stores the parsed document unchanged, so
the result is modelled as that document). -/
def run (_config : FioConfig.ConfigDoc) (p : CompletedProcess) :
    Except RunError JValue :=
  if p.returncode ≠ 0 then
    .error (.calledProcessError
      { returncode := p.returncode, cmd := p.args, output := p.stdout,
        stderr := p.stderr })
  else
    match jsonLoads p.stdout with
    | .ok d => .ok d
    | .error e => .error (.jsonDecodeError e)

/-- A concrete failed invocation outcome: exit code 1, empty stdout, stderr
"permission denied" (the spec's scenario). -/
def processFailed : CompletedProcess := ⟨["fio"], 1, "", "permission denied"⟩

/-- A concrete successful invocation outcome: exit code 0, stdout holding a
result document with an empty jobs list. -/
def processOk : CompletedProcess := ⟨["fio"], 0, "\x7b\"jobs\": []\x7d", ""⟩

end Fio

theorem except_bind_ok {ε α β : Type} (a : α) (f : α → Except ε β) :
    (Except.ok a : Except ε α) >>= f = f a := rfl

theorem except_bind_error {ε α β : Type} (e : ε) (f : α → Except ε β) :
    (Except.error e : Except ε α) >>= f = Except.error e := rfl

theorem except_bind_ok_inv {ε α β : Type} {x : Except ε α} {f : α → Except ε β}
    {b : β} (h : x >>= f = .ok b) : ∃ a, x = .ok a ∧ f a = .ok b := by
  cases x with
  | error e => rw [except_bind_error] at h; exact absurd h (by simp)
  | ok a => exact ⟨a, rfl, by rwa [except_bind_ok] at h⟩

theorem humanizeBytes_not_int (v : JValue) (h : isIntValue v = false) :
    FioResult.humanizeBytes v = FioResult.NO_RESULT_STRING := by
  cases v <;> simp_all [isIntValue, FioResult.humanizeBytes]

theorem humanizeTimeNs_not_numeric (v : JValue) (h : isNumericValue v = false) :
    FioResult.humanizeTimeNs v = FioResult.NO_RESULT_STRING := by
  cases v <;> simp_all [isNumericValue, FioResult.humanizeTimeNs]

theorem sadd_mem (st : RedisStore) (k v : String) :
    v ∈ RedisStore.smembers (RedisStore.sadd st k v) k := by
  induction st with
  | nil => simp [RedisStore.sadd, RedisStore.smembers]
  | cons hd tl ih =>
    obtain ⟨k2, ms⟩ := hd
    by_cases h : k2 = k
    · subst h
      by_cases hv : v ∈ ms <;>
        simp [RedisStore.sadd, RedisStore.smembers, hv]
    · simpa [RedisStore.sadd, RedisStore.smembers, h] using ih

theorem sadd_idem (st : RedisStore) (k v : String) :
    RedisStore.sadd (RedisStore.sadd st k v) k v = RedisStore.sadd st k v := by
  induction st with
  | nil => simp [RedisStore.sadd]
  | cons hd tl ih =>
    obtain ⟨k2, ms⟩ := hd
    by_cases h : k2 = k
    · subst h
      by_cases hv : v ∈ ms <;>
        simp [RedisStore.sadd, hv]
    · simp [RedisStore.sadd, h, ih]

theorem smembers_srem_other (st : RedisStore) (k k2 v : String) (h : k2 ≠ k) :
    RedisStore.smembers (RedisStore.srem st k2 v) k = RedisStore.smembers st k := by
  induction st with
  | nil => simp [RedisStore.srem, RedisStore.smembers]
  | cons hd tl ih =>
    obtain ⟨k3, ms⟩ := hd
    by_cases h3 : k3 = k2
    · subst h3
      simp [RedisStore.srem, RedisStore.smembers, h]
    · by_cases h4 : k3 = k
      · subst h4
        simp [RedisStore.srem, RedisStore.smembers, h3]
      · simp [RedisStore.srem, RedisStore.smembers, h3, h4, ih]

theorem workers_key_ne (g : String) : "workers_" ++ g ≠ g := by
  intro h
  have h2 : ("workers_" ++ g).length = g.length := congrArg String.length h
  rw [String.length_append] at h2
  have h8 : ("workers_" : String).length = 8 := rfl
  rw [h8] at h2
  omega

/-- C1: in the state where group "A" holds exactly the workers "w1" and "w2"
and the coordinator is configured with groups ["A"] and filename "job.ini",
`trigger_benchmark` does not complete: it raises `NotImplementedError` (via
`__log_progress`) before dispatching anything. The task-building loop of the
same method, run on its own, would indeed produce exactly the two tasks the
claim describes, one per worker queue, sharing the wave id. -/
theorem c1_trigger_benchmark_raises :
    Coordinator.trigger_benchmark [("A", ["w1", "w2"])]
        ⟨none, ["A"], "job.ini"⟩ 0 "wave-1" = .error "NotImplementedError" ∧
    Coordinator.build_wave_tasks [("A", ["w1", "w2"])]
        ⟨none, ["A"], "job.ini"⟩ 0 "wave-1" =
      [[⟨"job.ini", "wave-1", 0, "w1"⟩, ⟨"job.ini", "wave-1", 0, "w2"⟩]] := by
  constructor <;> rfl

/-- C5: with a configured group that has zero registered workers, the
task-building loop produces zero tasks for the (group, filename) pair, but
`trigger_benchmark` nevertheless raises `NotImplementedError` (via
`__log_progress`) instead of completing without error. -/
theorem c5_trigger_benchmark_empty_group :
    Coordinator.trigger_benchmark [] ⟨none, ["A"], "job.ini"⟩ 0 "wave-2" =
      .error "NotImplementedError" ∧
    Coordinator.build_wave_tasks [] ⟨none, ["A"], "job.ini"⟩ 0 "wave-2" = [[]] := by
  constructor <;> rfl

/-- C2: registering a worker adds its id to the redis set keyed by the group
name, but the shutdown cleanup removes it from the differently named key
`"workers_" + group`, so after register followed by the cleanup the id is
still a member of the set that `get_workers(group)` reads — contradicting
the claim that it is removed. -/
theorem c2_member_survives_cleanup (st : RedisStore) (w : Worker) (g i : String) :
    i ∈ Worker.get_workers
        (Worker.del_cleanup (Worker.register_worker st w g i).1
          (Worker.register_worker st w g i).2) g := by
  show i ∈ RedisStore.smembers
      (RedisStore.srem (RedisStore.sadd st g i) ("workers_" ++ g) i) g
  rw [smembers_srem_other _ _ _ _ (workers_key_ne g)]
  exact sadd_mem st g i

/-- C8: registering the same (group, id) twice yields exactly the same store
and worker state as registering it once — the second registration is a no-op
and leaves the membership (hence its size) unchanged. -/
theorem c8_register_worker_idempotent (st : RedisStore) (w : Worker) (g i : String) :
    Worker.register_worker (Worker.register_worker st w g i).1
        (Worker.register_worker st w g i).2 g i = Worker.register_worker st w g i ∧
    (Worker.get_workers (Worker.register_worker (Worker.register_worker st w g i).1
        (Worker.register_worker st w g i).2 g i).1 g).length =
      (Worker.get_workers (Worker.register_worker st w g i).1 g).length := by
  constructor
  · show (RedisStore.sadd (RedisStore.sadd st g i) g i, (⟨some g, some i⟩ : Worker)) = _
    rw [sadd_idem]
    rfl
  · show (RedisStore.smembers (RedisStore.sadd (RedisStore.sadd st g i) g i) g).length = _
    rw [sadd_idem]
    rfl

/-- C9: starting a worker whose id is unset fails with the fatal
`ValueError`, and starting one with an assigned id serves from the queue
named by exactly that id. -/
theorem c9_start_worker (w : Worker) :
    (w.worker_id = none →
      Worker.start_worker w = .error "worker_id must be set before starting the worker") ∧
    (∀ i, w.worker_id = some i →
      Worker.start_worker w = .ok ["worker", "--loglevel=info", "-E", "-Q", i]) := by
  constructor
  · intro h
    simp [Worker.start_worker, h]
  · intro i h
    simp [Worker.start_worker, h]

/-- Witness for C9 at concrete workers: one with no id, one registered as
"w1". -/
theorem c9_start_worker_witness :
    Worker.start_worker ⟨none, none⟩ =
      .error "worker_id must be set before starting the worker" ∧
    Worker.start_worker ⟨some "A", some "w1"⟩ =
      .ok ["worker", "--loglevel=info", "-E", "-Q", "w1"] :=
  ⟨(c9_start_worker ⟨none, none⟩).1 rfl,
   (c9_start_worker ⟨some "A", some "w1"⟩).2 "w1" rfl⟩

/-- C3 counterexample: on a config whose section "job1" carries the
non-numeric value "abc" for `ramp_time`, `get_job_runtime` raises
`ValueError` instead of treating the operand as 0 as the claim states. -/
theorem c3_nonnumeric_raises :
    FioConfig.get_job_runtime
        [("global", []), ("job1", [("ramp_time", "abc"), ("runtime", "30")])] =
      .error "ValueError" := by rfl

/-- C3 (amended): per section the estimate is the parsed resolved
`ramp_time` plus the parsed resolved `runtime`, where an absent key (or one
resolving to the empty string) contributes 0 — but a present non-numeric
value raises `ValueError` rather than defaulting — and the TOTAL row printed
equals the sum of the per-section estimates. -/
theorem c3_job_runtime_amended :
    (∀ (cfg : FioConfig.ConfigDoc) (s : String) (rv tv : Option String) (a b : ℤ),
      FioConfig.get_config_value cfg s "ramp_time" = .ok rv →
      FioConfig.pyIntOrZero rv = .ok a →
      FioConfig.get_config_value cfg s "runtime" = .ok tv →
      FioConfig.pyIntOrZero tv = .ok b →
      FioConfig.section_runtime cfg s = .ok (a + b)) ∧
    (FioConfig.pyIntOrZero none = .ok 0 ∧ FioConfig.pyIntOrZero (some "") = .ok 0) ∧
    (∀ (cfg : FioConfig.ConfigDoc) (rts : List (String × ℤ))
        (tbl : List (String × String)),
      FioConfig.get_job_runtime cfg = .ok rts →
      FioConfig.print_job_runtime cfg = .ok tbl →
      tbl.getLast? = some ("TOTAL", toString (rts.map Prod.snd).sum ++ "s")) := by
  refine ⟨?_, ⟨rfl, rfl⟩, ?_⟩
  · intro cfg s rv tv a b h1 h2 h3 h4
    simp [FioConfig.section_runtime, h1, h2, h3, h4, except_bind_ok]
  · intro cfg rts tbl h1 h2
    simp [FioConfig.print_job_runtime, h1, except_bind_ok] at h2
    subst h2
    simp [List.getLast?_concat]

/-- Witness for C3 (amended) at the spec's own scenario: `global.runtime=30`
and a section "job1" with neither key resolves to 0 + 30 = 30, and the
printed TOTAL row sums the sections. -/
theorem c3_job_runtime_amended_witness :
    FioConfig.section_runtime [("global", [("runtime", "30")]), ("job1", [])] "job1" =
      .ok 30 ∧
    ([("job1", "30s"), ("TOTAL", "30s")] : List (String × String)).getLast? =
      some ("TOTAL", "30s") :=
  ⟨c3_job_runtime_amended.1 [("global", [("runtime", "30")]), ("job1", [])]
      "job1" none (some "30") 0 30 rfl rfl rfl rfl,
   c3_job_runtime_amended.2.2 [("global", [("runtime", "30")]), ("job1", [])]
      [("job1", 30)] [("job1", "30s"), ("TOTAL", "30s")] rfl rfl⟩

/-- C4 counterexample: on the job record with every field absent the
projection succeeds but maps "Read IOPS" to the formatted zero default
"0.00 IOPS", not to the sentinel "---" that the claim promises for every
missing source value. -/
theorem c4_missing_iops_not_sentinel :
    FioResult.metricAt (JValue.obj []) "Read IOPS" = some "0.00 IOPS" ∧
    ("0.00 IOPS" : String) ≠ FioResult.NO_RESULT_STRING :=
  ⟨by rfl, by decide⟩

/-- C4 (amended), in two parts. First: on any job record in which the six
source keys (`read`, `write`, `job_runtime`, `usr_cpu`, `sys_cpu`, `ctx`)
are absent, the projection never raises and maps exactly the fixed labels,
with sentinel strings for the byte and latency fields and formatted zero
defaults — not the sentinel — for the IOPS, CPU, runtime and context-switch
fields. Second: whenever the projection returns a mapping at all, every byte
field whose source value is missing or not an int renders the sentinel
(bandwidths append the per-second suffix to it), and every latency field
whose source value is missing or non-numeric renders the sentinel — a
missing source arrives at the renderer as the non-numeric default string, so
both halves are covered uniformly. -/
theorem c4_metrics_rendering :
    (∀ (fields : List (String × JValue)),
      jlookup fields "read" = none → jlookup fields "write" = none →
      jlookup fields "job_runtime" = none → jlookup fields "usr_cpu" = none →
      jlookup fields "sys_cpu" = none → jlookup fields "ctx" = none →
      FioResult.get_relevant_metrics (JValue.obj fields) =
        .ok FioResult.defaultMetrics) ∧
    (∀ (job : JValue) (m : List (String × String)),
      FioResult.get_relevant_metrics job = .ok m →
      (∀ v, FioResult.safe_get job ["read", "io_bytes"]
          (JValue.str FioResult.NO_RESULT_STRING) = .ok v → isIntValue v = false →
        mlookup m "Total Read IO" = some FioResult.NO_RESULT_STRING) ∧
      (∀ v, FioResult.safe_get job ["write", "io_bytes"]
          (JValue.str FioResult.NO_RESULT_STRING) = .ok v → isIntValue v = false →
        mlookup m "Total Write IO" = some FioResult.NO_RESULT_STRING) ∧
      (∀ v, FioResult.safe_get job ["read", "bw_bytes"]
          (JValue.str FioResult.NO_RESULT_STRING) = .ok v → isIntValue v = false →
        mlookup m "Read Bandwidth" = some (FioResult.NO_RESULT_STRING ++ "/s")) ∧
      (∀ v, FioResult.safe_get job ["write", "bw_bytes"]
          (JValue.str FioResult.NO_RESULT_STRING) = .ok v → isIntValue v = false →
        mlookup m "Write Bandwidth" = some (FioResult.NO_RESULT_STRING ++ "/s")) ∧
      (∀ v, FioResult.safe_get job ["read", "slat_ns", "mean"]
          (JValue.str FioResult.NO_RESULT_STRING) = .ok v → isNumericValue v = false →
        mlookup m "Read Submission Latency" = some FioResult.NO_RESULT_STRING) ∧
      (∀ v, FioResult.safe_get job ["read", "clat_ns", "mean"]
          (JValue.str FioResult.NO_RESULT_STRING) = .ok v → isNumericValue v = false →
        mlookup m "Read Completion Latency" = some FioResult.NO_RESULT_STRING) ∧
      (∀ v, FioResult.safe_get job ["read", "lat_ns", "mean"]
          (JValue.str FioResult.NO_RESULT_STRING) = .ok v → isNumericValue v = false →
        mlookup m "Read Total Latency" = some FioResult.NO_RESULT_STRING) ∧
      (∀ v, FioResult.safe_get job ["write", "slat_ns", "mean"]
          (JValue.str FioResult.NO_RESULT_STRING) = .ok v → isNumericValue v = false →
        mlookup m "Write Submission Latency" = some FioResult.NO_RESULT_STRING) ∧
      (∀ v, FioResult.safe_get job ["write", "clat_ns", "mean"]
          (JValue.str FioResult.NO_RESULT_STRING) = .ok v → isNumericValue v = false →
        mlookup m "Write Completion Latency" = some FioResult.NO_RESULT_STRING) ∧
      (∀ v, FioResult.safe_get job ["write", "lat_ns", "mean"]
          (JValue.str FioResult.NO_RESULT_STRING) = .ok v → isNumericValue v = false →
        mlookup m "Write Total Latency" = some FioResult.NO_RESULT_STRING) ∧
      (∀ v, FioResult.safe_get job ["read", "clat_ns", "percentile", "99.000000"]
          (JValue.str FioResult.NO_RESULT_STRING) = .ok v → isNumericValue v = false →
        mlookup m "Read Latency (99.0 Percentiles)" = some FioResult.NO_RESULT_STRING) ∧
      (∀ v, FioResult.safe_get job ["read", "clat_ns", "percentile", "99.900000"]
          (JValue.str FioResult.NO_RESULT_STRING) = .ok v → isNumericValue v = false →
        mlookup m "Read Latency (99.9 Percentiles)" = some FioResult.NO_RESULT_STRING) ∧
      (∀ v, FioResult.safe_get job ["write", "clat_ns", "percentile", "99.000000"]
          (JValue.str FioResult.NO_RESULT_STRING) = .ok v → isNumericValue v = false →
        mlookup m "Write Latency (99.0 Percentiles)" = some FioResult.NO_RESULT_STRING) ∧
      (∀ v, FioResult.safe_get job ["write", "clat_ns", "percentile", "99.900000"]
          (JValue.str FioResult.NO_RESULT_STRING) = .ok v → isNumericValue v = false →
        mlookup m "Write Latency (99.9 Percentiles)" = some FioResult.NO_RESULT_STRING)) := by
  constructor
  · intro fields h1 h2 h3 h4 h5 h6
    simp [FioResult.get_relevant_metrics, FioResult.safe_get, h1, h2, h3, h4, h5, h6,
      except_bind_ok]
    rfl
  · intro job m hm
    simp only [FioResult.get_relevant_metrics] at hm
    obtain ⟨v1, h1, hm⟩ := except_bind_ok_inv hm
    obtain ⟨v2, h2, hm⟩ := except_bind_ok_inv hm
    obtain ⟨v3, h3, hm⟩ := except_bind_ok_inv hm
    obtain ⟨v4, h4, hm⟩ := except_bind_ok_inv hm
    obtain ⟨v5, h5, hm⟩ := except_bind_ok_inv hm
    obtain ⟨f5, hf5, hm⟩ := except_bind_ok_inv hm
    obtain ⟨v6, h6, hm⟩ := except_bind_ok_inv hm
    obtain ⟨f6, hf6, hm⟩ := except_bind_ok_inv hm
    obtain ⟨v7, h7, hm⟩ := except_bind_ok_inv hm
    obtain ⟨v8, h8, hm⟩ := except_bind_ok_inv hm
    obtain ⟨v9, h9, hm⟩ := except_bind_ok_inv hm
    obtain ⟨v10, h10, hm⟩ := except_bind_ok_inv hm
    obtain ⟨v11, h11, hm⟩ := except_bind_ok_inv hm
    obtain ⟨v12, h12, hm⟩ := except_bind_ok_inv hm
    obtain ⟨v13, h13, hm⟩ := except_bind_ok_inv hm
    obtain ⟨q13, hq13, hm⟩ := except_bind_ok_inv hm
    obtain ⟨v14, h14, hm⟩ := except_bind_ok_inv hm
    obtain ⟨f14, hf14, hm⟩ := except_bind_ok_inv hm
    obtain ⟨v15, h15, hm⟩ := except_bind_ok_inv hm
    obtain ⟨f15, hf15, hm⟩ := except_bind_ok_inv hm
    obtain ⟨v16, h16, hm⟩ := except_bind_ok_inv hm
    obtain ⟨v17, h17, hm⟩ := except_bind_ok_inv hm
    obtain ⟨v18, h18, hm⟩ := except_bind_ok_inv hm
    obtain ⟨v19, h19, hm⟩ := except_bind_ok_inv hm
    obtain ⟨v20, h20, hm⟩ := except_bind_ok_inv hm
    have hm2 := Except.ok.inj hm
    subst hm2
    refine ⟨?_, ?_, ?_, ?_, ?_, ?_, ?_, ?_, ?_, ?_, ?_, ?_, ?_, ?_⟩
    · intro v hv hnn
      show some (FioResult.humanizeBytes v1) = some FioResult.NO_RESULT_STRING
      rw [h1] at hv
      injection hv with he
      subst he
      rw [humanizeBytes_not_int _ hnn]
    · intro v hv hnn
      show some (FioResult.humanizeBytes v2) = some FioResult.NO_RESULT_STRING
      rw [h2] at hv
      injection hv with he
      subst he
      rw [humanizeBytes_not_int _ hnn]
    · intro v hv hnn
      show some (FioResult.humanizeBytes v3 ++ "/s") =
        some (FioResult.NO_RESULT_STRING ++ "/s")
      rw [h3] at hv
      injection hv with he
      subst he
      rw [humanizeBytes_not_int _ hnn]
    · intro v hv hnn
      show some (FioResult.humanizeBytes v4 ++ "/s") =
        some (FioResult.NO_RESULT_STRING ++ "/s")
      rw [h4] at hv
      injection hv with he
      subst he
      rw [humanizeBytes_not_int _ hnn]
    · intro v hv hnn
      show some (FioResult.humanizeTimeNs v7) = some FioResult.NO_RESULT_STRING
      rw [h7] at hv
      injection hv with he
      subst he
      rw [humanizeTimeNs_not_numeric _ hnn]
    · intro v hv hnn
      show some (FioResult.humanizeTimeNs v8) = some FioResult.NO_RESULT_STRING
      rw [h8] at hv
      injection hv with he
      subst he
      rw [humanizeTimeNs_not_numeric _ hnn]
    · intro v hv hnn
      show some (FioResult.humanizeTimeNs v9) = some FioResult.NO_RESULT_STRING
      rw [h9] at hv
      injection hv with he
      subst he
      rw [humanizeTimeNs_not_numeric _ hnn]
    · intro v hv hnn
      show some (FioResult.humanizeTimeNs v10) = some FioResult.NO_RESULT_STRING
      rw [h10] at hv
      injection hv with he
      subst he
      rw [humanizeTimeNs_not_numeric _ hnn]
    · intro v hv hnn
      show some (FioResult.humanizeTimeNs v11) = some FioResult.NO_RESULT_STRING
      rw [h11] at hv
      injection hv with he
      subst he
      rw [humanizeTimeNs_not_numeric _ hnn]
    · intro v hv hnn
      show some (FioResult.humanizeTimeNs v12) = some FioResult.NO_RESULT_STRING
      rw [h12] at hv
      injection hv with he
      subst he
      rw [humanizeTimeNs_not_numeric _ hnn]
    · intro v hv hnn
      show some (FioResult.humanizeTimeNs v17) = some FioResult.NO_RESULT_STRING
      rw [h17] at hv
      injection hv with he
      subst he
      rw [humanizeTimeNs_not_numeric _ hnn]
    · intro v hv hnn
      show some (FioResult.humanizeTimeNs v18) = some FioResult.NO_RESULT_STRING
      rw [h18] at hv
      injection hv with he
      subst he
      rw [humanizeTimeNs_not_numeric _ hnn]
    · intro v hv hnn
      show some (FioResult.humanizeTimeNs v19) = some FioResult.NO_RESULT_STRING
      rw [h19] at hv
      injection hv with he
      subst he
      rw [humanizeTimeNs_not_numeric _ hnn]
    · intro v hv hnn
      show some (FioResult.humanizeTimeNs v20) = some FioResult.NO_RESULT_STRING
      rw [h20] at hv
      injection hv with he
      subst he
      rw [humanizeTimeNs_not_numeric _ hnn]

/-- Witness for C4 (amended): the sentinel part applied to a job whose read
byte counter is present but holds the non-numeric string "garbage" (its
projection succeeds and coincides with the all-defaults table), and the
absent-fields part applied to the empty job record. -/
theorem c4_metrics_rendering_witness :
    mlookup FioResult.defaultMetrics "Total Read IO" =
      some FioResult.NO_RESULT_STRING ∧
    FioResult.get_relevant_metrics (JValue.obj []) = .ok FioResult.defaultMetrics :=
  ⟨(c4_metrics_rendering.2 FioResult.garbageJob FioResult.defaultMetrics (by rfl)).1
      (JValue.str "garbage") (by rfl) (by rfl),
   c4_metrics_rendering.1 [] rfl rfl rfl rfl rfl rfl⟩

/-- C6: when the executable exits non-zero, `Fio.run` fails with the
`CalledProcessError` carrying exactly the exit code, the captured stdout and
the captured stderr, producing no result; when it exits zero with parseable
stdout, the result built from that stdout is returned. -/
theorem c6_run (cfg : FioConfig.ConfigDoc) (p : CompletedProcess) :
    (p.returncode ≠ 0 → Fio.run cfg p = .error (.calledProcessError
      ⟨p.returncode, p.args, p.stdout, p.stderr⟩)) ∧
    (p.returncode = 0 → ∀ d, jsonLoads p.stdout = .ok d → Fio.run cfg p = .ok d) := by
  constructor
  · intro h
    simp [Fio.run, h]
  · intro h d hd
    simp [Fio.run, h, hd]

/-- Witness for C6: the spec's scenario — exit code 1 with stderr
"permission denied" — fails with that payload, and a zero exit with stdout
carrying an empty jobs document yields the parsed result. -/
theorem c6_run_witness :
    Fio.run [] Fio.processFailed =
      .error (.calledProcessError ⟨1, ["fio"], "", "permission denied"⟩) ∧
    Fio.run [] Fio.processOk = .ok (JValue.obj [("jobs", JValue.arr [])]) :=
  ⟨(c6_run [] Fio.processFailed).1 (by decide),
   (c6_run [] Fio.processOk).2 rfl (JValue.obj [("jobs", JValue.arr [])]) (by rfl)⟩

/-- C7 counterexample: on a parsed config without a `global` section, the
lookup raises `NoSectionError` even though the section itself defines the
key — instead of returning the section-local value as the claim states. -/
theorem c7_missing_global_raises :
    FioConfig.get_config_value [("job1", [("rw", "read")])] "job1" "rw" =
      .error "NoSectionError" := by rfl

/-- C7 (amended): provided both the section and the `global` section exist,
the lookup returns the section-local value whenever the section defines the
key — even when `global` defines a different value — and otherwise falls
back to whatever `global` resolves to (`None` when neither defines it); a
config without a `global` section instead raises `NoSectionError`. -/
theorem c7_value_resolution (cfg : FioConfig.ConfigDoc) (s k : String)
    (items gl : List (String × String))
    (hs : FioConfig.get_section cfg s = .ok items)
    (hg : FioConfig.get_globals cfg = .ok gl) :
    (∀ v, FioConfig.search_tuple_list items k = some v →
      FioConfig.get_config_value cfg s k = .ok (some v)) ∧
    (FioConfig.search_tuple_list items k = none →
      FioConfig.get_config_value cfg s k = .ok (FioConfig.search_tuple_list gl k)) := by
  constructor
  · intro v hv
    simp [FioConfig.get_config_value, hs, hg, hv, except_bind_ok]
  · intro hv
    simp [FioConfig.get_config_value, hs, hg, hv, except_bind_ok]

/-- Witness for C7 (amended): section "job1" overrides `global`'s `size` with
its own value, and `global`'s `iodepth` is used where the section is silent. -/
theorem c7_value_resolution_witness :
    FioConfig.get_config_value
        [("global", [("size", "1G"), ("iodepth", "16")]), ("job1", [("size", "2G")])]
        "job1" "size" = .ok (some "2G") ∧
    FioConfig.get_config_value
        [("global", [("size", "1G"), ("iodepth", "16")]), ("job1", [("size", "2G")])]
        "job1" "iodepth" = .ok (some "16") :=
  ⟨(c7_value_resolution
      [("global", [("size", "1G"), ("iodepth", "16")]), ("job1", [("size", "2G")])]
      "job1" "size" [("size", "2G")] [("size", "1G"), ("iodepth", "16")] rfl rfl).1
      "2G" rfl,
   (c7_value_resolution
      [("global", [("size", "1G"), ("iodepth", "16")]), ("job1", [("size", "2G")])]
      "job1" "iodepth" [("size", "2G")] [("size", "1G"), ("iodepth", "16")] rfl rfl).2
      rfl⟩

/-- C10: on a result document whose jobs list is empty, `print_table` raises
(`IndexError`, from indexing the first job to build the metric rows); it
returns a table only when at least one job record is present. -/
theorem c10_print_table_empty_jobs (r : JValue) :
    (FioResult.get_jobs r = .ok [] → FioResult.print_table r = .error "IndexError") ∧
    (∀ out, FioResult.print_table r = .ok out →
      ∃ j js, FioResult.get_jobs r = .ok (j :: js)) := by
  constructor
  · intro h
    simp [FioResult.print_table, FioResult.get_jobnames, h, except_bind_ok]
    rfl
  · intro out h
    cases e : FioResult.get_jobs r with
    | error msg =>
      rw [FioResult.print_table, FioResult.get_jobnames] at h
      simp [e, except_bind_error] at h
    | ok l =>
      cases l with
      | nil =>
        rw [FioResult.print_table, FioResult.get_jobnames] at h
        simp [e, List.mapM, List.mapM.loop, except_bind_ok, except_bind_error] at h
      | cons j js => exact ⟨j, js, rfl⟩

/-- Witness for C10 at the concrete result document with an empty jobs
list. -/
theorem c10_print_table_empty_jobs_witness :
    FioResult.print_table (JValue.obj [("jobs", JValue.arr [])]) =
      .error "IndexError" :=
  (c10_print_table_empty_jobs (JValue.obj [("jobs", JValue.arr [])])).1 rfl
